import Mathlib

/-!
Verification development for the Conference Hall repository: a shallow
embedding of its domain services (speaker proposals, team members, user
accounts, event integrations, auth sessions) and proofs of the stated
properties. Databases are modelled as explicit state (lists of rows),
thrown errors as `Except`, and each service method as a function from
state to `Except error (result × state)` or similar.
-/

/- ## Shared error types (`~/shared/errors.server.ts`) -/

/-- Errors thrown by the domain services: `ProposalNotFoundError`,
`CfpNotOpenError` and `ForbiddenOperationError` from
`~/shared/errors.server.ts`. -/
inductive DomainError where
  | proposalNotFound
  | cfpNotOpen
  | forbiddenOperation
  deriving DecidableEq, Repr

/- ## Proposal data model (Prisma `Proposal` rows as used by the services) -/

/-- Deliberation status of a proposal; the three values offered by the
organizers' deliberation UI. -/
inductive DeliberationStatus where
  | PENDING
  | ACCEPTED
  | REJECTED
  deriving DecidableEq, Repr

/-- Whether the deliberation result has been published to the speaker. -/
inductive PublicationStatus where
  | NOT_PUBLISHED
  | PUBLISHED
  deriving DecidableEq, Repr

/-- Speaker's answer to an accepted proposal. -/
inductive ConfirmationStatus where
  | CONFIRMED
  | DECLINED
  deriving DecidableEq, Repr

/-- A proposal row: the columns read and written by `SpeakerProposal`.
`speakers` holds the user ids of the proposal's speakers. -/
structure Proposal where
  id : String
  talkId : String
  eventId : String
  title : String
  abstract : String
  level : Option String
  languages : List String
  references : Option String
  formats : List String
  categories : List String
  speakers : List String
  deliberationStatus : DeliberationStatus
  publicationStatus : PublicationStatus
  confirmationStatus : Option ConfirmationStatus
  deriving DecidableEq, Repr

/-- An event row, reduced to the fields `SpeakerProposal` consults:
whether its call-for-papers is currently open. -/
structure Event where
  id : String
  cfpOpen : Bool
  deriving DecidableEq, Repr

/-- Database state seen by `SpeakerProposal`. -/
structure SpeakerDb where
  events : List Event
  proposals : List Proposal
  deriving DecidableEq, Repr

/-- Lookup of the proposal by primary key, restricted to proposals that
have `speakerId` among their speakers (the `where` clause shared by all
`SpeakerProposal` methods). -/
def SpeakerDb.findProposalOf (db : SpeakerDb) (speakerId proposalId : String) :
    Option Proposal :=
  db.proposals.find? fun p => p.id = proposalId ∧ p.speakers.contains speakerId

/-- Lookup of an event by primary key. -/
def SpeakerDb.findEvent (db : SpeakerDb) (eventId : String) : Option Event :=
  db.events.find? fun e => e.id = eventId

/- ## SpeakerProposal (`speaker-proposal.server.ts`) -/

/-- Modelled from the spec: `speaker-proposal.server.ts` is not under
`src/` (only its test file is). Per the spec, `SpeakerProposal.get`
retrieves the proposal of the calling speaker by primary key and throws
`ProposalNotFoundError` when the proposal does not exist or does not
belong to the speaker. -/
def SpeakerProposal.get (db : SpeakerDb) (speakerId proposalId : String) :
    Except DomainError Proposal :=
  match db.findProposalOf speakerId proposalId with
  | none => .error .proposalNotFound
  | some p => .ok p

/-- The fields written by `SpeakerProposal.update`. -/
structure UpdateProposalData where
  title : String
  abstract : String
  level : Option String
  languages : List String
  references : Option String
  formats : List String
  categories : List String
  deriving DecidableEq, Repr

/-- Modelled from the spec: `speaker-proposal.server.ts` is not under
`src/`. Per the spec, `SpeakerProposal.update` throws
`ProposalNotFoundError` when the proposal does not exist or does not
belong to the speaker, throws `CfpNotOpenError` when the event's
call-for-papers is not open, and otherwise writes the given title,
abstract, level, languages, references, formats and categories on the
proposal row (a guarded field update on the row retrieved by primary
key). On any error the database is unchanged. -/
def SpeakerProposal.update (db : SpeakerDb) (speakerId proposalId : String)
    (data : UpdateProposalData) : Except DomainError SpeakerDb :=
  match db.findProposalOf speakerId proposalId with
  | none => .error .proposalNotFound
  | some p =>
    match db.findEvent p.eventId with
    | none => .error .proposalNotFound
    | some ev =>
      if ev.cfpOpen then
        .ok { db with
          proposals := db.proposals.map fun q =>
            if q.id = proposalId then
              { q with
                title := data.title
                abstract := data.abstract
                level := data.level
                languages := data.languages
                references := data.references
                formats := data.formats
                categories := data.categories }
            else q }
      else .error .cfpNotOpen

/-- Modelled from the spec: `speaker-proposal.server.ts` is not under
`src/`. Per the spec, `SpeakerProposal.removeCoSpeaker` throws
`ProposalNotFoundError` when the proposal does not exist or does not
belong to the speaker, and otherwise disconnects the given co-speaker
from the proposal. -/
def SpeakerProposal.removeCoSpeaker (db : SpeakerDb)
    (speakerId proposalId coSpeakerId : String) : Except DomainError SpeakerDb :=
  match db.findProposalOf speakerId proposalId with
  | none => .error .proposalNotFound
  | some _ =>
    .ok { db with
      proposals := db.proposals.map fun q =>
        if q.id = proposalId then
          { q with speakers := q.speakers.filter (· ≠ coSpeakerId) }
        else q }

/-- Modelled from the spec: `speaker-proposal.server.ts` is not under
`src/`. Per the spec, `SpeakerProposal.confirm` throws
`ProposalNotFoundError` when the proposal does not exist or does not
belong to the speaker, and otherwise performs a guarded update that sets
`confirmationStatus` to the given value only on the row whose
deliberation result is accepted and published to the speaker; a proposal
that is not accepted, or whose result is not published, is left
untouched. -/
def SpeakerProposal.confirm (db : SpeakerDb) (speakerId proposalId : String)
    (status : ConfirmationStatus) : Except DomainError SpeakerDb :=
  match db.findProposalOf speakerId proposalId with
  | none => .error .proposalNotFound
  | some _ =>
    .ok { db with
      proposals := db.proposals.map fun q =>
        if q.id = proposalId ∧ q.deliberationStatus = .ACCEPTED ∧
            q.publicationStatus = .PUBLISHED then
          { q with confirmationStatus := some status }
        else q }

/- ## Deliberation transitions (`ListHeader` / `DeliberationButton`) -/

/-- The deliberation statuses offered by the proposals list header:
`ListHeader` renders exactly three `DeliberationButton`s, with statuses
`ACCEPTED`, `PENDING` and `REJECTED`, whenever a selection is non-empty
and the user can deliberate (`list-header.tsx`). -/
def ListHeader.deliberationButtonStatuses : List DeliberationStatus :=
  [.ACCEPTED, .PENDING, .REJECTED]

/-- Modelled from the spec: the organizer-side deliberation service
(triggered by `DeliberationButton`) is not under `src/`; per the spec it
is a guarded field update setting the deliberation status of the selected
rows. `ProposalStep` collects the transitions a single proposal row can
undergo: a deliberation to any of the statuses offered by the UI buttons,
a publication of the result, and a speaker confirmation (via
`SpeakerProposal.confirm`, whose guarded update only touches rows that
are accepted and published). -/
inductive ProposalStep : Proposal → Proposal → Prop where
  | deliberate (p : Proposal) (s : DeliberationStatus)
      (hs : s ∈ ListHeader.deliberationButtonStatuses) :
      ProposalStep p { p with deliberationStatus := s }
  | publish (p : Proposal) :
      ProposalStep p { p with publicationStatus := .PUBLISHED }
  | confirmAnswer (p : Proposal) (c : ConfirmationStatus)
      (hacc : p.deliberationStatus = .ACCEPTED)
      (hpub : p.publicationStatus = .PUBLISHED) :
      ProposalStep p { p with confirmationStatus := some c }

/-- Position of a proposal along the claimed linear chain
submitted → accepted/rejected → confirmed/declined: 0 for a pending
(submitted) proposal, 1 once deliberated, 2 once the speaker has
answered. Stated from the spec's words, to be compared against the
transitions the code offers. -/
def chainStage (p : Proposal) : Nat :=
  if p.confirmationStatus.isSome then 2
  else if p.deliberationStatus = .PENDING then 0
  else 1

/-- A concrete accepted, published proposal used as an input below. -/
def acceptedProposal : Proposal :=
  { id := "p1", talkId := "t1", eventId := "e1", title := "Talk"
    abstract := "About", level := none, languages := ["en"]
    references := none, formats := [], categories := [], speakers := ["s1"]
    deliberationStatus := .ACCEPTED, publicationStatus := .PUBLISHED
    confirmationStatus := none }

/- ## TeamMembers (`team-members.server.ts`) -/

/-- Role of a user inside a team. -/
inductive TeamRole where
  | OWNER
  | MEMBER
  | REVIEWER
  deriving DecidableEq, Repr

/-- A team membership row. -/
structure TeamMember where
  userId : String
  role : TeamRole
  deriving DecidableEq, Repr

/-- A team row with its memberships. -/
structure Team where
  slug : String
  memberships : List TeamMember
  deriving DecidableEq, Repr

/-- Database state seen by `TeamMembers`. -/
structure TeamDb where
  teams : List Team
  deriving DecidableEq, Repr

/-- Lookup of a team by slug. -/
def TeamDb.findTeam (db : TeamDb) (slug : String) : Option Team :=
  db.teams.find? fun t => t.slug = slug

/-- The caller's membership in a team, when any. -/
def Team.findMember (t : Team) (userId : String) : Option TeamMember :=
  t.memberships.find? fun m => m.userId = userId

/-- Whether a user is an owner of the team. -/
def Team.isOwner (t : Team) (userId : String) : Bool :=
  match t.findMember userId with
  | some m => m.role = .OWNER
  | none => false

/-- Modelled from the spec: `team-members.server.ts` is not under `src/`
(only its test file is). Per the spec, `TeamMembers.list` is an
authorization check followed by a read: it throws
`ForbiddenOperationError` unless the caller is an owner of the team, and
otherwise returns the team's memberships. -/
def TeamMembers.list (db : TeamDb) (userId slug : String) :
    Except DomainError (List TeamMember) :=
  match db.findTeam slug with
  | none => .error .forbiddenOperation
  | some t =>
    if t.isOwner userId then .ok t.memberships
    else .error .forbiddenOperation

/-- Modelled from the spec: `team-members.server.ts` is not under `src/`.
Per the spec, `TeamMembers.leave` throws `ForbiddenOperationError` when
the caller does not belong to the team or is one of its owners, and
otherwise deletes the caller's membership. On error the memberships are
unchanged (the error carries no new state). -/
def TeamMembers.leave (db : TeamDb) (userId slug : String) :
    Except DomainError TeamDb :=
  match db.findTeam slug with
  | none => .error .forbiddenOperation
  | some t =>
    match t.findMember userId with
    | none => .error .forbiddenOperation
    | some m =>
      if m.role = .OWNER then .error .forbiddenOperation
      else
        .ok { db with
          teams := db.teams.map fun u =>
            if u.slug = slug then
              { u with memberships := u.memberships.filter (·.userId ≠ userId) }
            else u }

/-- Modelled from the spec: `team-members.server.ts` is not under `src/`.
Per the spec, `TeamMembers.remove` throws `ForbiddenOperationError` when
the caller is not an owner of the team or targets themselves, and
otherwise deletes the member's membership. -/
def TeamMembers.remove (db : TeamDb) (userId slug memberId : String) :
    Except DomainError TeamDb :=
  if memberId = userId then .error .forbiddenOperation
  else
    match db.findTeam slug with
    | none => .error .forbiddenOperation
    | some t =>
      if t.isOwner userId then
        .ok { db with
          teams := db.teams.map fun u =>
            if u.slug = slug then
              { u with memberships := u.memberships.filter (·.userId ≠ memberId) }
            else u }
      else .error .forbiddenOperation

/-- Modelled from the spec: `team-members.server.ts` is not under `src/`.
Per the spec, `TeamMembers.changeRole` throws `ForbiddenOperationError`
when the caller is not an owner of the team or targets themselves, and
otherwise sets the member's role. -/
def TeamMembers.changeRole (db : TeamDb) (userId slug memberId : String)
    (role : TeamRole) : Except DomainError TeamDb :=
  if memberId = userId then .error .forbiddenOperation
  else
    match db.findTeam slug with
    | none => .error .forbiddenOperation
    | some t =>
      if t.isOwner userId then
        .ok { db with
          teams := db.teams.map fun u =>
            if u.slug = slug then
              { u with
                memberships := u.memberships.map fun m =>
                  if m.userId = memberId then { m with role := role } else m }
            else u }
      else .error .forbiddenOperation

/- ## UserAccount.register (`src/app/.server/user-registration/user-account.ts`) -/

/-- `UserAccountCreateInput` from `user-account.ts`. The optional fields
are `Option`s; `name` and `provider` are declared required in the
TypeScript type but the function body supplies destructuring defaults for
them, so they are modelled as `Option`s too (the defaults apply when the
value is absent at runtime). -/
structure UserAccountCreateInput where
  uid : String
  name : Option String
  email : Option String
  emailVerified : Option Bool
  picture : Option String
  provider : Option String
  deriving DecidableEq, Repr

/-- A `users` row, reduced to the columns `register` writes. -/
structure User where
  id : String
  name : String
  email : String
  emailVerified : Option Bool
  picture : Option String
  deriving DecidableEq, Repr

/-- An `authenticationMethod` row; `userId` is the foreign key of the
owning user. -/
structure AuthenticationMethod where
  uid : String
  name : String
  email : String
  picture : Option String
  provider : String
  userId : String
  deriving DecidableEq, Repr

/-- Database state seen by `UserAccount.register`; `nextId` generates the
ids of created users. -/
structure RegistrationDb where
  users : List User
  authenticationMethods : List AuthenticationMethod
  nextId : Nat
  deriving DecidableEq, Repr

/-- `db.authenticationMethod.findUnique` on the unique `uid` column. -/
def RegistrationDb.findAuthenticationMethod (db : RegistrationDb) (uid : String) :
    Option AuthenticationMethod :=
  db.authenticationMethods.find? fun a => a.uid = uid

/-- The fresh user id produced by a create (the database generates it). -/
def RegistrationDb.freshUserId (db : RegistrationDb) : String :=
  "user-" ++ toString db.nextId

/-- `UserAccount.register` from `user-account.ts`: look up the
authentication method by `uid`; when it exists return its user's id and
leave the database unchanged; otherwise create one authentication method
and, nested inside it, one user, applying the destructuring defaults
`name = '(No name)'`, ``email = `${uid}@example.com` `` and
`provider = 'unknown'`, and return the new user's id. -/
def UserAccount.register (db : RegistrationDb) (data : UserAccountCreateInput) :
    String × RegistrationDb :=
  match db.findAuthenticationMethod data.uid with
  | some authentication => (authentication.userId, db)
  | none =>
    let name := data.name.getD "(No name)"
    let email := data.email.getD (data.uid ++ "@example.com")
    let provider := data.provider.getD "unknown"
    let userId := db.freshUserId
    let newUser : User :=
      { id := userId, name := name, email := email
        emailVerified := data.emailVerified, picture := data.picture }
    let newAuthentication : AuthenticationMethod :=
      { uid := data.uid, name := name, email := email, picture := data.picture
        provider := provider, userId := userId }
    (userId,
      { users := db.users ++ [newUser]
        authenticationMethods := db.authenticationMethods ++ [newAuthentication]
        nextId := db.nextId + 1 })

/- ## UserAccount.sendResetPasswordEmail (`user-account.ts`) -/

/-- A URL as the service manipulates it: a base and its query
parameters, in order. -/
structure Url where
  base : String
  params : List (String × String)
  deriving DecidableEq, Repr

/-- `url.searchParams.get(key)`: the first value bound to the key. -/
def Url.searchParamGet (u : Url) (key : String) : Option String :=
  (u.params.find? fun kv => kv.1 = key).map fun kv => kv.2

/-- `url.searchParams.set(key, value)`: replace the binding when the key
is present, append it otherwise. -/
def Url.searchParamSet (u : Url) (key value : String) : Url :=
  if u.params.any fun kv => kv.1 = key then
    { u with params := u.params.map fun kv => if kv.1 = key then (key, value) else kv }
  else
    { u with params := u.params ++ [(key, value)] }

/-- A reset-password email as handed to `sendResetPasswordEmail` (the
template call at the end of the service). -/
structure ResetPasswordEmail where
  email : String
  passwordResetUrl : Url
  deriving DecidableEq, Repr

/-- `UserAccount.sendResetPasswordEmail` from `user-account.ts`, returning
the list of emails sent. The whole body sits in a `try` whose `catch`
logs and returns, so the function is total: a failure of
`firebaseAuth.generatePasswordResetLink` (or of parsing the produced
link, both folded into the `generatePasswordResetLink` argument returning
`Except`) sends nothing; a link whose `oobCode` query parameter is absent
— or empty, since the code tests JavaScript falsiness `!oobCode` — sends
nothing; otherwise one email is sent whose URL is
`appUrl/auth/reset-password` with `oobCode` and `email` set. -/
def UserAccount.sendResetPasswordEmail
    (generatePasswordResetLink : String → Except String Url)
    (appUrl : String) (email : String) : List ResetPasswordEmail :=
  match generatePasswordResetLink email with
  | .error _ => []
  | .ok firebaseResetUrl =>
    match firebaseResetUrl.searchParamGet "oobCode" with
    | none => []
    | some oobCode =>
      if oobCode = "" then []
      else
        let passwordResetUrl : Url := { base := appUrl ++ "/auth/reset-password", params := [] }
        let passwordResetUrl := passwordResetUrl.searchParamSet "oobCode" oobCode
        let passwordResetUrl := passwordResetUrl.searchParamSet "email" email
        [{ email := email, passwordResetUrl := passwordResetUrl }]

/- ## Event integrations action (`settings+/integrations.tsx`) -/

/-- A submitted form: its fields in order; `form.get key` is the first
value bound to the key, `null` (here `none`) when absent. -/
def FormData : Type := List (String × String)

/-- `form.get(key)` of the web `FormData` API. -/
def FormData.get (form : FormData) (key : String) : Option String :=
  (List.find? (fun kv => kv.1 = key) form).map fun kv => kv.2

/-- An OpenPlanner configuration: the two fields of the OpenPlanner form
rendered by the route (`eventId` and `apiKey` inputs). -/
structure OpenPlannerConfig where
  eventId : String
  apiKey : String
  deriving DecidableEq, Repr

/-- Modelled from the spec: `event-integrations.types.ts` (which defines
`OpenPlannerConfigSchema`) is not under `src/`. The schema validates the
two fields of the route's OpenPlanner form, `eventId` and `apiKey`, as
required strings; the form library used by `parseWithZod` treats an
absent or empty field as missing, so parsing succeeds exactly when both
fields are present and non-empty. -/
def parseOpenPlannerConfig (form : FormData) : Option OpenPlannerConfig :=
  match (form.get "eventId").filter (· ≠ ""), (form.get "apiKey").filter (· ≠ "") with
  | some eventId, some apiKey => some { eventId := eventId, apiKey := apiKey }
  | _, _ => none

/-- Modelled from the spec: `user-event.types.ts` (which defines
`EventSlackSettingsSchema`) is not under `src/`. The schema validates the
route's Slack form, whose single field is `slackWebhookUrl`; parsing
succeeds when the field is submitted, yielding its (possibly null)
value. -/
def parseEventSlackSettings (form : FormData) : Option (Option String) :=
  match form.get "slackWebhookUrl" with
  | some url => some ((some url).filter (· ≠ ""))
  | none => none

/-- An `eventIntegrationConfig` row for the OpenPlanner integration. -/
structure Integration where
  id : String
  name : String
  configuration : OpenPlannerConfig
  deriving DecidableEq, Repr

/-- State touched by the integrations action: the event's integration
rows, the event's Slack webhook URL, and a counter generating fresh
integration ids. -/
structure IntegrationsDb where
  integrations : List Integration
  slackWebhookUrl : Option String
  nextId : Nat
  deriving DecidableEq, Repr

/-- Modelled from the spec: `event-integrations.ts` is not under `src/`.
`EventIntegrations.save` upserts the configuration: with a known id it
replaces that row's configuration, otherwise it creates a row. -/
def EventIntegrations.save (db : IntegrationsDb) (id : Option String)
    (name : String) (configuration : OpenPlannerConfig) : IntegrationsDb :=
  match id with
  | some i =>
    if db.integrations.any fun g => g.id = i then
      { db with
        integrations := db.integrations.map fun g =>
          if g.id = i then { g with name := name, configuration := configuration } else g }
    else
      { db with
        integrations := db.integrations ++
          [{ id := "integration-" ++ toString db.nextId, name := name, configuration := configuration }]
        nextId := db.nextId + 1 }
  | none =>
    { db with
      integrations := db.integrations ++
        [{ id := "integration-" ++ toString db.nextId, name := name, configuration := configuration }]
      nextId := db.nextId + 1 }

/-- Modelled from the spec: `event-integrations.ts` is not under `src/`.
`EventIntegrations.delete` removes the integration row with the given
id. -/
def EventIntegrations.delete (db : IntegrationsDb) (id : String) : IntegrationsDb :=
  { db with integrations := db.integrations.filter fun g => g.id ≠ id }

/-- Result of `checkConfiguration` against the OpenPlanner API
(`result?.success` and `result?.error` in the route). -/
structure OpenPlannerCheck where
  success : Bool
  error : Option String
  deriving DecidableEq, Repr

/-- What the integrations action returns to the client: a validation
error object (`result.error` of `parseWithZod`), a toast, or `null`. -/
inductive ActionResult where
  | validationError
  | toastResult (status : String) (message : String)
  | nullResult
  deriving DecidableEq, Repr

/-- The `action` of `settings+/integrations.tsx`, after the session
check: dispatch on the `intent` field. `save-slack-integration` parses
the Slack schema, on failure returns its error, on success updates the
event and falls through to `return null`. `save-open-planner-integration`
parses the optional `id` (which always succeeds) then the OpenPlanner
schema; on failure it returns the validation error without saving, on
success it saves and returns a success toast. `check-open-planner-
integration` parses the same and calls `checkConfiguration` (passed here
as the `check` argument), returning a toast either way and changing
nothing. `disable-integration` requires an `id`; when it is missing an
error toast is returned and nothing is deleted, otherwise the row is
deleted and a success toast returned. Any other intent returns `null`. -/
def integrationsAction (check : Option String → OpenPlannerConfig → Option OpenPlannerCheck)
    (db : IntegrationsDb) (form : FormData) : ActionResult × IntegrationsDb :=
  match form.get "intent" with
  | some "save-slack-integration" =>
    match parseEventSlackSettings form with
    | none => (.validationError, db)
    | some url => (.nullResult, { db with slackWebhookUrl := url })
  | some "save-open-planner-integration" =>
    let id := (form.get "id").filter (· ≠ "")
    match parseOpenPlannerConfig form with
    | none => (.validationError, db)
    | some configuration =>
      (.toastResult "success" "OpenPlanner integration is enabled.",
        EventIntegrations.save db id "OPEN_PLANNER" configuration)
  | some "check-open-planner-integration" =>
    let id := (form.get "id").filter (· ≠ "")
    match parseOpenPlannerConfig form with
    | none => (.validationError, db)
    | some configuration =>
      match check id configuration with
      | some result =>
        if result.success then
          (.toastResult "success" "OpenPlanner integration is working.", db)
        else
          (.toastResult "error" ("OpenPlanner issue: " ++ (result.error.getD "undefined")), db)
      | none => (.toastResult "error" ("OpenPlanner issue: " ++ "undefined"), db)
  | some "disable-integration" =>
    match (form.get "id").filter (· ≠ "") with
    | none => (.toastResult "error" "Something went wrong.", db)
    | some id => (.toastResult "success" "OpenPlanner integration is disabled.", EventIntegrations.delete db id)
  | _ => (.nullResult, db)

/- ## getSessionUserId (`session.ts`, auth) -/

/-- The decoded Firebase session token, reduced to the field the code
compares: its `uid`. -/
structure DecodedIdToken where
  uid : String
  deriving DecidableEq, Repr

/-- The redirect thrown by `destroySession`: `throw redirect('/')` with a
`Set-Cookie` header destroying the session. -/
inductive AuthRedirect where
  | destroyAndRedirectHome
  deriving DecidableEq, Repr

/-- The data stored in the `__session` cookie: the three keys
`getSessionUserId` reads, each possibly absent. -/
structure SessionData where
  jwt : Option String
  uid : Option String
  userId : Option String
  deriving DecidableEq, Repr

/-- JavaScript falsiness of `session.get(...)` for these string-valued
keys: absent or empty. -/
def falsyStr (v : Option String) : Bool :=
  match v with
  | none => true
  | some s => s = ""

/-- `getSessionUserId` from the auth `session.ts`.
`verifySessionCookie` is Firebase's `auth.verifySessionCookie`, which
either returns the decoded token or throws (modelled by `Except`).
When any of `jwt`, `uid`, `userId` is falsy the function returns `null`.
Otherwise it verifies the cookie inside a `try`: on success with matching
`uid` it returns the stored `userId`; on a `uid` mismatch it calls
`destroySession`, which throws a redirect — that throw is caught by the
`catch`, which calls `destroySession` again, whose redirect propagates;
on a verification failure the `catch` likewise calls `destroySession`
and the redirect propagates. The trailing `return null` is therefore
reached only... never in these two branches: the function throws the
redirect instead of returning. -/
def getSessionUserId (verifySessionCookie : String → Except String DecodedIdToken)
    (session : SessionData) : Except AuthRedirect (Option String) :=
  if falsyStr session.jwt ∨ falsyStr session.uid ∨ falsyStr session.userId then
    .ok none
  else
    match session.jwt, session.uid, session.userId with
    | some jwt, some uid, some userId =>
      match verifySessionCookie jwt with
      | .ok token =>
        if uid = token.uid then .ok (some userId)
        else .error .destroyAndRedirectHome
      | .error _ => .error .destroyAndRedirectHome
    | _, _, _ => .ok none

/- ## Concrete sample inputs -/

/-- A pending, unpublished proposal of speaker `s1`. -/
def pendingProposal : Proposal :=
  { id := "p2", talkId := "t2", eventId := "e1", title := "Other talk"
    abstract := "More", level := none, languages := ["fr"]
    references := none, formats := [], categories := [], speakers := ["s1"]
    deliberationStatus := .PENDING, publicationStatus := .NOT_PUBLISHED
    confirmationStatus := none }

/-- A database with an open-CFP event and the two sample proposals. -/
def speakerDb0 : SpeakerDb :=
  { events := [{ id := "e1", cfpOpen := true }]
    proposals := [acceptedProposal, pendingProposal] }

/-- The same database with the call-for-papers closed. -/
def speakerDbClosed : SpeakerDb :=
  { events := [{ id := "e1", cfpOpen := false }]
    proposals := [acceptedProposal, pendingProposal] }

/-- A sample payload for `SpeakerProposal.update`. -/
def updateData0 : UpdateProposalData :=
  { title := "Title changed", abstract := "Abstract changes"
    level := some "INTERMEDIATE", languages := ["be"]
    references := some "Reference changed", formats := ["f1"], categories := ["c1"] }

/-- A team with one owner, one member and one reviewer. -/
def team0 : Team :=
  { slug := "my-team"
    memberships := [{ userId := "o1", role := .OWNER },
                    { userId := "m1", role := .MEMBER },
                    { userId := "r1", role := .REVIEWER }] }

/-- A database holding just `team0`. -/
def teamDb0 : TeamDb :=
  { teams := [team0] }

/-- An empty registration database. -/
def regDb0 : RegistrationDb :=
  { users := [], authenticationMethods := [], nextId := 0 }

/-- A registration input without email and provider. -/
def regData0 : UserAccountCreateInput :=
  { uid := "123", name := some "Bob", email := none, emailVerified := none
    picture := none, provider := some "google.com" }

/-- A second registration input with the same uid but different fields. -/
def regData1 : UserAccountCreateInput :=
  { uid := "123", name := some "Alice", email := some "alice@example.com"
    emailVerified := some true, picture := none, provider := none }

/-- An empty integrations state. -/
def intDb0 : IntegrationsDb :=
  { integrations := [], slackWebhookUrl := none, nextId := 0 }

/-- A form submitting a complete OpenPlanner configuration. -/
def openPlannerForm0 : FormData :=
  [("intent", "save-open-planner-integration"), ("eventId", "op-event"), ("apiKey", "op-key")]

/-- A `checkConfiguration` stub whose API call yields nothing. -/
def checkNone : Option String → OpenPlannerConfig → Option OpenPlannerCheck :=
  fun _ _ => none

/-- A session cookie verifier that always throws. -/
def verifyAlwaysFails : String → Except String DecodedIdToken :=
  fun _ => .error "auth/invalid-session-cookie"

/-- A verifier accepting every cookie as belonging to uid `uid-1`. -/
def verifyAsUid1 : String → Except String DecodedIdToken :=
  fun _ => .ok { uid := "uid-1" }

/-- A session holding all three keys. -/
def fullSession : SessionData :=
  { jwt := some "jwt-1", uid := some "uid-1", userId := some "user-1" }

/-- A password-reset link generator returning a link with an `oobCode`. -/
def generateLinkOk : String → Except String Url :=
  fun _ => .ok { base := "https://firebase.app/auth"
                 params := [("mode", "resetPassword"), ("oobCode", "my-code")] }

/-- A registration database whose only authentication method is the one
`register` creates for `regData0`. -/
def authMethod0 : AuthenticationMethod :=
  { uid := "123", name := "Bob", email := "123@example.com", picture := none
    provider := "google.com", userId := "user-0" }

/-- The registration database after registering `regData0`. -/
def regDb1 : RegistrationDb :=
  { users := [{ id := "user-0", name := "Bob", email := "123@example.com"
                emailVerified := none, picture := none }]
    authenticationMethods := [authMethod0]
    nextId := 1 }

/-- The state of `speakerDb0` after `s1` confirms proposal `p1`. -/
def confirmedDb0 : SpeakerDb :=
  { events := [{ id := "e1", cfpOpen := true }]
    proposals := [{ acceptedProposal with confirmationStatus := some .CONFIRMED },
                  pendingProposal] }

/- ## Theorems -/

/-- Equation lemma: a `register` that finds the authentication method
returns its user's id and leaves the database unchanged. -/
theorem register_of_found (db : RegistrationDb) (data : UserAccountCreateInput)
    (a : AuthenticationMethod) (ha : db.findAuthenticationMethod data.uid = some a) :
    UserAccount.register db data = (a.userId, db) := by
  simp [UserAccount.register, ha]

/-- Equation lemma: a `register` that finds no authentication method
creates the user and the authentication method with the destructuring
defaults applied. -/
theorem register_of_missing (db : RegistrationDb) (data : UserAccountCreateInput)
    (h : db.findAuthenticationMethod data.uid = none) :
    UserAccount.register db data =
      (db.freshUserId,
        { users := db.users ++
            [{ id := db.freshUserId, name := data.name.getD "(No name)"
               email := data.email.getD (data.uid ++ "@example.com")
               emailVerified := data.emailVerified, picture := data.picture }]
          authenticationMethods := db.authenticationMethods ++
            [{ uid := data.uid, name := data.name.getD "(No name)"
               email := data.email.getD (data.uid ++ "@example.com")
               picture := data.picture, provider := data.provider.getD "unknown"
               userId := db.freshUserId }]
          nextId := db.nextId + 1 }) := by
  simp [UserAccount.register, h]

/-- Claim C3: for every registration input, `UserAccount.register`
returns the id of the existing user when an authentication method with
the given uid already exists; otherwise it creates exactly one new user
and one authentication method — with email defaulting to
`<uid>@example.com` and provider defaulting to `unknown` when absent —
and returns the new user's id. -/
theorem UserAccount.register_spec (db : RegistrationDb) (data : UserAccountCreateInput) :
    (∀ a, db.findAuthenticationMethod data.uid = some a →
        UserAccount.register db data = (a.userId, db)) ∧
    (db.findAuthenticationMethod data.uid = none →
        ∃ u m,
          (UserAccount.register db data).1 = u.id ∧
          (UserAccount.register db data).2.users = db.users ++ [u] ∧
          (UserAccount.register db data).2.authenticationMethods =
            db.authenticationMethods ++ [m] ∧
          m.uid = data.uid ∧ m.userId = u.id ∧
          u.email = data.email.getD (data.uid ++ "@example.com") ∧
          m.email = u.email ∧
          m.provider = data.provider.getD "unknown") := by
  constructor
  · intro a ha
    simp [UserAccount.register, ha]
  · intro hnone
    simp only [UserAccount.register, hnone]
    exact ⟨_, _, rfl, rfl, rfl, rfl, rfl, rfl, rfl, rfl⟩

/-- Witness for C3: registering over `regDb1`, whose only authentication
method has uid `123`, returns the existing user id `user-0` and leaves
the database unchanged. -/
theorem UserAccount.register_spec_witness :
    UserAccount.register regDb1 regData1 = ("user-0", regDb1) :=
  (UserAccount.register_spec regDb1 regData1).1 authMethod0 rfl

/-- Claim C7: `UserAccount.register` is idempotent with respect to uid:
calling it a second time with the same uid (whatever the other fields)
returns the id produced by the first call and changes nothing. -/
theorem UserAccount.register_idempotent (db : RegistrationDb)
    (data data2 : UserAccountCreateInput) (h : data2.uid = data.uid) :
    UserAccount.register (UserAccount.register db data).2 data2 =
      ((UserAccount.register db data).1, (UserAccount.register db data).2) := by
  cases hfind : db.findAuthenticationMethod data.uid with
  | some a =>
    have h2 : db.findAuthenticationMethod data2.uid = some a := by
      unfold RegistrationDb.findAuthenticationMethod at hfind ⊢
      rw [h]; exact hfind
    rw [register_of_found db data a hfind, register_of_found db data2 a h2]
  | none =>
    rw [register_of_missing db data hfind]
    dsimp only
    refine register_of_found _ data2
      { uid := data.uid, name := data.name.getD "(No name)"
        email := data.email.getD (data.uid ++ "@example.com")
        picture := data.picture, provider := data.provider.getD "unknown"
        userId := db.freshUserId } ?_
    unfold RegistrationDb.findAuthenticationMethod at hfind ⊢
    rw [h, List.find?_append, hfind, Option.none_or]
    simp

/-- Witness for C7: registering `regData1` (same uid `123`, different
fields) right after registering `regData0` over the empty database
returns the first call's id and state. -/
theorem UserAccount.register_idempotent_witness :
    UserAccount.register (UserAccount.register regDb0 regData0).2 regData1 =
      ((UserAccount.register regDb0 regData0).1, (UserAccount.register regDb0 regData0).2) :=
  UserAccount.register_idempotent regDb0 regData0 regData1 rfl

/-- Claim C1: `SpeakerProposal.confirm` (on a proposal of the calling
speaker) sets `confirmationStatus` to the given value only on the
addressed proposal when it is accepted and its result published; every
proposal that is not accepted or not published is left entirely
unchanged — in particular a null `confirmationStatus` stays null. The
events table is untouched. -/
theorem SpeakerProposal.confirm_guarded (db : SpeakerDb)
    (speakerId proposalId : String) (status : ConfirmationStatus) (db' : SpeakerDb)
    (hok : SpeakerProposal.confirm db speakerId proposalId status = .ok db') :
    db'.events = db.events ∧
    List.Forall₂ (fun q q' =>
      (q.id = proposalId ∧ q.deliberationStatus = .ACCEPTED ∧
          q.publicationStatus = .PUBLISHED →
        q'.confirmationStatus = some status) ∧
      (¬(q.deliberationStatus = .ACCEPTED ∧ q.publicationStatus = .PUBLISHED) →
        q' = q))
      db.proposals db'.proposals := by
  unfold SpeakerProposal.confirm at hok
  cases hfind : db.findProposalOf speakerId proposalId with
  | none => rw [hfind] at hok; exact absurd hok (by simp)
  | some p =>
    rw [hfind] at hok
    injection hok with hok
    subst hok
    refine ⟨rfl, ?_⟩
    rw [List.forall₂_map_right_iff]
    rw [List.forall₂_same]
    intro x _
    constructor
    · intro hcond
      rw [if_pos hcond]
    · intro hneg
      rw [if_neg fun hc => hneg ⟨hc.2.1, hc.2.2⟩]

/-- Witness for C1: confirming the accepted, published proposal `p1` in
`speakerDb0` sets its status and leaves the pending proposal `p2`
untouched. -/
theorem SpeakerProposal.confirm_guarded_witness :
    confirmedDb0.events = speakerDb0.events ∧
    List.Forall₂ (fun q q' =>
      (q.id = "p1" ∧ q.deliberationStatus = .ACCEPTED ∧
          q.publicationStatus = .PUBLISHED →
        q'.confirmationStatus = some .CONFIRMED) ∧
      (¬(q.deliberationStatus = .ACCEPTED ∧ q.publicationStatus = .PUBLISHED) →
        q' = q))
      speakerDb0.proposals confirmedDb0.proposals :=
  SpeakerProposal.confirm_guarded speakerDb0 "s1" "p1" .CONFIRMED confirmedDb0 rfl

/-- Counterexample to claim C2 as stated: the proposals list header
renders a `DeliberationButton` with status `PENDING`, so marking an
accepted proposal as pending is a transition the code offers — a move
back to an earlier state of the claimed linear chain. -/
theorem ProposalStep.backward_counterexample :
    ProposalStep acceptedProposal { acceptedProposal with deliberationStatus := .PENDING } ∧
    chainStage { acceptedProposal with deliberationStatus := .PENDING } <
      chainStage acceptedProposal :=
  ⟨ProposalStep.deliberate acceptedProposal .PENDING (by decide), by decide⟩

/-- Claim C2 (amended): transitions are not forward-only — the
deliberation buttons can move a deliberated proposal back to pending.
What holds instead: every backward move along the chain is a
deliberation reset to one of the three button statuses, and the
confirmation status only ever changes on a proposal that is accepted
with its result published, a forward move. -/
theorem ProposalStep.amended (p q : Proposal) (hstep : ProposalStep p q) :
    (chainStage q < chainStage p →
      ∃ s, s ∈ ListHeader.deliberationButtonStatuses ∧
        q = { p with deliberationStatus := s }) ∧
    (q.confirmationStatus ≠ p.confirmationStatus →
      p.deliberationStatus = .ACCEPTED ∧ p.publicationStatus = .PUBLISHED ∧
        chainStage p ≤ chainStage q) := by
  cases hstep with
  | deliberate s hs =>
    exact ⟨fun _ => ⟨s, hs, rfl⟩, fun hc => absurd rfl hc⟩
  | publish =>
    constructor
    · intro hlt
      have heq : chainStage { p with publicationStatus := .PUBLISHED } = chainStage p := by
        simp [chainStage]
      rw [heq] at hlt
      exact absurd hlt (lt_irrefl _)
    · intro hc
      exact absurd rfl hc
  | confirmAnswer c hacc hpub =>
    have hq : chainStage { p with confirmationStatus := some c } = 2 := by
      simp [chainStage]
    have hp : chainStage p ≤ 2 := by
      unfold chainStage
      split
      · exact le_refl 2
      · split
        · omega
        · omega
    constructor
    · intro hlt
      rw [hq] at hlt
      omega
    · intro _
      refine ⟨hacc, hpub, ?_⟩
      rw [hq]
      exact hp

/-- Witness for the amended C2: the confirmation step on the concrete
accepted, published proposal changes the confirmation status, and the
theorem yields that the source proposal was accepted and published and
the move was forward. -/
theorem ProposalStep.amended_witness :
    acceptedProposal.deliberationStatus = .ACCEPTED ∧
    acceptedProposal.publicationStatus = .PUBLISHED ∧
    chainStage acceptedProposal ≤
      chainStage { acceptedProposal with confirmationStatus := some .CONFIRMED } :=
  (ProposalStep.amended acceptedProposal
      { acceptedProposal with confirmationStatus := some .CONFIRMED }
      (ProposalStep.confirmAnswer acceptedProposal .CONFIRMED rfl rfl)).2 (by decide)

/-- Claim C4: when the proposal does not exist or does not belong to the
calling speaker, `SpeakerProposal.get`, `update`, `removeCoSpeaker` and
`confirm` all throw `ProposalNotFoundError`; the error carries no new
state, so no proposal data is changed. -/
theorem SpeakerProposal.notFound_errors (db : SpeakerDb)
    (speakerId proposalId coSpeakerId : String) (data : UpdateProposalData)
    (status : ConfirmationStatus)
    (h : ∀ p ∈ db.proposals, ¬(p.id = proposalId ∧ p.speakers.contains speakerId)) :
    SpeakerProposal.get db speakerId proposalId = .error .proposalNotFound ∧
    SpeakerProposal.update db speakerId proposalId data = .error .proposalNotFound ∧
    SpeakerProposal.removeCoSpeaker db speakerId proposalId coSpeakerId =
      .error .proposalNotFound ∧
    SpeakerProposal.confirm db speakerId proposalId status = .error .proposalNotFound := by
  have hfind : db.findProposalOf speakerId proposalId = none := by
    unfold SpeakerDb.findProposalOf
    rw [List.find?_eq_none]
    intro x hx
    simpa using h x hx
  refine ⟨?_, ?_, ?_, ?_⟩ <;>
    simp [SpeakerProposal.get, SpeakerProposal.update,
      SpeakerProposal.removeCoSpeaker, SpeakerProposal.confirm, hfind]

/-- Witness for C4: speaker `other` owns nothing in `speakerDb0`, so all
four operations on proposal `p1` fail with `ProposalNotFoundError`. -/
theorem SpeakerProposal.notFound_errors_witness :
    SpeakerProposal.get speakerDb0 "other" "p1" = .error .proposalNotFound ∧
    SpeakerProposal.update speakerDb0 "other" "p1" updateData0 = .error .proposalNotFound ∧
    SpeakerProposal.removeCoSpeaker speakerDb0 "other" "p1" "s1" =
      .error .proposalNotFound ∧
    SpeakerProposal.confirm speakerDb0 "other" "p1" .CONFIRMED = .error .proposalNotFound :=
  SpeakerProposal.notFound_errors speakerDb0 "other" "p1" "s1" updateData0 .CONFIRMED
    (by decide)

/-- Claim C5: `TeamMembers.list`, `remove` and `changeRole` throw
`ForbiddenOperationError` when the caller is not an owner of the team;
`remove` and `changeRole` also throw when the caller targets themselves;
`leave` throws when the caller is an owner or does not belong to the
team. Every such error carries no new state, so the memberships are
unchanged. -/
theorem TeamMembers.forbidden_errors (db : TeamDb) (userId slug memberId : String)
    (role : TeamRole) :
    (∀ t, db.findTeam slug = some t → t.isOwner userId = false →
        TeamMembers.list db userId slug = .error .forbiddenOperation ∧
        TeamMembers.remove db userId slug memberId = .error .forbiddenOperation ∧
        TeamMembers.changeRole db userId slug memberId role = .error .forbiddenOperation) ∧
    (TeamMembers.remove db userId slug userId = .error .forbiddenOperation) ∧
    (TeamMembers.changeRole db userId slug userId role = .error .forbiddenOperation) ∧
    (∀ t m, db.findTeam slug = some t → t.findMember userId = some m →
        m.role = .OWNER → TeamMembers.leave db userId slug = .error .forbiddenOperation) ∧
    (∀ t, db.findTeam slug = some t → t.findMember userId = none →
        TeamMembers.leave db userId slug = .error .forbiddenOperation) := by
  refine ⟨?_, ?_, ?_, ?_, ?_⟩
  · intro t ht hown
    refine ⟨?_, ?_, ?_⟩
    · simp [TeamMembers.list, ht, hown]
    · by_cases hm : memberId = userId
      · simp [TeamMembers.remove, hm]
      · simp [TeamMembers.remove, hm, ht, hown]
    · by_cases hm : memberId = userId
      · simp [TeamMembers.changeRole, hm]
      · simp [TeamMembers.changeRole, hm, ht, hown]
  · simp [TeamMembers.remove]
  · simp [TeamMembers.changeRole]
  · intro t m ht hm hrole
    simp [TeamMembers.leave, ht, hm, hrole]
  · intro t ht hm
    simp [TeamMembers.leave, ht, hm]

/-- Witness for C5: in `teamDb0`, the plain member `m1` may not list,
remove from, or change roles in the team. -/
theorem TeamMembers.forbidden_errors_witness :
    TeamMembers.list teamDb0 "m1" "my-team" = .error .forbiddenOperation ∧
    TeamMembers.remove teamDb0 "m1" "my-team" "o1" = .error .forbiddenOperation ∧
    TeamMembers.changeRole teamDb0 "m1" "my-team" "o1" .REVIEWER =
      .error .forbiddenOperation :=
  (TeamMembers.forbidden_errors teamDb0 "m1" "my-team" "o1" .REVIEWER).1 team0 rfl rfl

/-- Claim C6: on a proposal of the calling speaker, `SpeakerProposal.update`
throws `CfpNotOpenError` when the event's call-for-papers is not open —
the error carries no new state, so the proposal and its talk are left
unchanged — and when the CFP is open it writes the given title, abstract,
level, languages, references, formats and categories on the addressed
proposal, leaving every other proposal and the events untouched. -/
theorem SpeakerProposal.update_cfp (db : SpeakerDb) (speakerId proposalId : String)
    (data : UpdateProposalData) (p : Proposal) (ev : Event)
    (hp : db.findProposalOf speakerId proposalId = some p)
    (hev : db.findEvent p.eventId = some ev) :
    (ev.cfpOpen = false →
        SpeakerProposal.update db speakerId proposalId data = .error .cfpNotOpen) ∧
    (ev.cfpOpen = true →
        ∃ db', SpeakerProposal.update db speakerId proposalId data = .ok db' ∧
          db'.events = db.events ∧
          List.Forall₂ (fun q q' =>
            (q.id = proposalId →
              q'.title = data.title ∧ q'.abstract = data.abstract ∧
              q'.level = data.level ∧ q'.languages = data.languages ∧
              q'.references = data.references ∧ q'.formats = data.formats ∧
              q'.categories = data.categories) ∧
            (q.id ≠ proposalId → q' = q))
            db.proposals db'.proposals) := by
  constructor
  · intro hclosed
    simp [SpeakerProposal.update, hp, hev, hclosed]
  · intro hopen
    refine ⟨{ db with proposals := db.proposals.map fun q =>
        if q.id = proposalId then
          { q with
            title := data.title
            abstract := data.abstract
            level := data.level
            languages := data.languages
            references := data.references
            formats := data.formats
            categories := data.categories }
        else q }, ?_, rfl, ?_⟩
    · simp [SpeakerProposal.update, hp, hev, hopen]
    · rw [List.forall₂_map_right_iff, List.forall₂_same]
      intro x _
      constructor
      · intro hid
        rw [if_pos hid]
        exact ⟨rfl, rfl, rfl, rfl, rfl, rfl, rfl⟩
      · intro hid
        rw [if_neg hid]

/-- Witness for C6: updating proposal `p1` while `speakerDbClosed`'s CFP
is closed fails with `CfpNotOpenError`. -/
theorem SpeakerProposal.update_cfp_witness :
    SpeakerProposal.update speakerDbClosed "s1" "p1" updateData0 = .error .cfpNotOpen :=
  (SpeakerProposal.update_cfp speakerDbClosed "s1" "p1" updateData0 acceptedProposal
      { id := "e1", cfpOpen := false } rfl rfl).1 rfl

/-- Claim C8: the integrations action validates before acting. With
intent `save-open-planner-integration`, a form failing
`OpenPlannerConfigSchema` makes the action return the validation error
with the state untouched, while a valid configuration is saved and a
success toast returned; with intent `disable-integration`, a missing id
yields an error toast and nothing is deleted, a present id deletes that
row; an unrecognized (or absent) intent returns null and changes
nothing. -/
theorem integrationsAction_spec
    (check : Option String → OpenPlannerConfig → Option OpenPlannerCheck)
    (db : IntegrationsDb) (form : FormData) :
    (form.get "intent" = some "save-open-planner-integration" →
      (parseOpenPlannerConfig form = none →
        integrationsAction check db form = (.validationError, db)) ∧
      (∀ cfg, parseOpenPlannerConfig form = some cfg →
        integrationsAction check db form =
          (.toastResult "success" "OpenPlanner integration is enabled.",
            EventIntegrations.save db ((form.get "id").filter (· ≠ ""))
              "OPEN_PLANNER" cfg))) ∧
    (form.get "intent" = some "disable-integration" →
      ((form.get "id").filter (· ≠ "") = none →
        integrationsAction check db form =
          (.toastResult "error" "Something went wrong.", db)) ∧
      (∀ i, (form.get "id").filter (· ≠ "") = some i →
        integrationsAction check db form =
          (.toastResult "success" "OpenPlanner integration is disabled.",
            EventIntegrations.delete db i))) ∧
    (∀ intent, form.get "intent" = some intent →
      intent ≠ "save-slack-integration" →
      intent ≠ "save-open-planner-integration" →
      intent ≠ "check-open-planner-integration" →
      intent ≠ "disable-integration" →
      integrationsAction check db form = (.nullResult, db)) ∧
    (form.get "intent" = none →
      integrationsAction check db form = (.nullResult, db)) := by
  refine ⟨?_, ?_, ?_, ?_⟩
  · intro hintent
    constructor
    · intro hnone
      simp [integrationsAction, hintent, hnone]
    · intro cfg hcfg
      simp [integrationsAction, hintent, hcfg]
  · intro hintent
    constructor
    · intro hnone
      have hnone2 : Option.filter (fun x => !decide (x = "")) (form.get "id") = none := by
        simpa using hnone
      simp [integrationsAction, hintent, hnone2]
    · intro i hi
      have hi2 : Option.filter (fun x => !decide (x = "")) (form.get "id") = some i := by
        simpa using hi
      simp [integrationsAction, hintent, hi2]
  · intro intent hintent h1 h2 h3 h4
    simp [integrationsAction, hintent, h1, h2, h3, h4]
  · intro hnone
    simp [integrationsAction, hnone]

/-- Witness for C8: submitting `openPlannerForm0` (a complete
configuration) saves it and returns the success toast. -/
theorem integrationsAction_spec_witness :
    integrationsAction checkNone intDb0 openPlannerForm0 =
      (.toastResult "success" "OpenPlanner integration is enabled.",
        EventIntegrations.save intDb0 ((openPlannerForm0.get "id").filter (· ≠ ""))
          "OPEN_PLANNER" { eventId := "op-event", apiKey := "op-key" }) :=
  ((integrationsAction_spec checkNone intDb0 openPlannerForm0).1 rfl).2
    { eventId := "op-event", apiKey := "op-key" } rfl

/-- Counterexample to claim C9 as stated: with a full session whose
cookie fails verification, `getSessionUserId` does not return null — it
destroys the session and throws the redirect (`destroySession` ends in
`throw redirect('/')`, and the `catch` branch re-invokes it), so the
caller sees a thrown redirect, not a null return. -/
theorem getSessionUserId_counterexample :
    getSessionUserId verifyAlwaysFails fullSession = .error .destroyAndRedirectHome ∧
    getSessionUserId verifyAlwaysFails fullSession ≠ .ok none := by
  refine ⟨rfl, ?_⟩
  intro h
  rw [show getSessionUserId verifyAlwaysFails fullSession =
      .error .destroyAndRedirectHome from rfl] at h
  exact Except.noConfusion h

/-- Evaluation of `getSessionUserId` on a session whose three keys are
present and truthy: the result is decided by cookie verification. -/
theorem getSessionUserId_eval (verify : String → Except String DecodedIdToken)
    (jwt uid userId : String) (hj : jwt ≠ "") (hi : uid ≠ "") (hd : userId ≠ "") :
    getSessionUserId verify { jwt := some jwt, uid := some uid, userId := some userId } =
      match verify jwt with
      | .ok token =>
        if uid = token.uid then .ok (some userId)
        else .error .destroyAndRedirectHome
      | .error _ => .error .destroyAndRedirectHome := by
  unfold getSessionUserId
  have hcond : ¬(falsyStr (some jwt) = true ∨ falsyStr (some uid) = true ∨
      falsyStr (some userId) = true) := by
    simp [falsyStr, hj, hi, hd]
  rw [if_neg hcond]

/-- Claim C9 (amended): `getSessionUserId` returns a non-null userId only
when the session holds truthy `jwt`, `uid` and `userId`, the jwt
verifies, and the verified uid equals the stored uid. When any of the
three keys is absent or empty it returns null. But when all three are
present and verification fails, or the uids differ, it does not return
null: it destroys the session and throws a redirect. -/
theorem getSessionUserId_amended (verify : String → Except String DecodedIdToken)
    (session : SessionData) :
    (∀ u, getSessionUserId verify session = .ok (some u) →
      ∃ jwt uid userId token, session.jwt = some jwt ∧ session.uid = some uid ∧
        session.userId = some userId ∧ jwt ≠ "" ∧ uid ≠ "" ∧ userId ≠ "" ∧
        verify jwt = .ok token ∧ uid = token.uid ∧ u = userId) ∧
    ((falsyStr session.jwt ∨ falsyStr session.uid ∨ falsyStr session.userId) →
      getSessionUserId verify session = .ok none) ∧
    (∀ jwt uid userId, session.jwt = some jwt → session.uid = some uid →
      session.userId = some userId → jwt ≠ "" → uid ≠ "" → userId ≠ "" →
      ((∀ token, verify jwt = .ok token → uid = token.uid →
          getSessionUserId verify session = .ok (some userId)) ∧
       (∀ token, verify jwt = .ok token → uid ≠ token.uid →
          getSessionUserId verify session = .error .destroyAndRedirectHome) ∧
       (∀ e, verify jwt = .error e →
          getSessionUserId verify session = .error .destroyAndRedirectHome))) := by
  obtain ⟨sj, su, sd⟩ := session
  refine ⟨?_, ?_, ?_⟩
  · intro u hu
    cases sj with
    | none => simp [getSessionUserId, falsyStr] at hu
    | some jwt =>
      cases su with
      | none => simp [getSessionUserId, falsyStr] at hu
      | some uid =>
        cases sd with
        | none => simp [getSessionUserId, falsyStr] at hu
        | some userId =>
          by_cases hj : jwt = ""
          · simp [getSessionUserId, falsyStr, hj] at hu
          · by_cases hi : uid = ""
            · simp [getSessionUserId, falsyStr, hj, hi] at hu
            · by_cases hd : userId = ""
              · simp [getSessionUserId, falsyStr, hj, hi, hd] at hu
              · rw [getSessionUserId_eval verify jwt uid userId hj hi hd] at hu
                cases hv : verify jwt with
                | ok token =>
                  by_cases he : uid = token.uid
                  · simp only [hv, he, if_true] at hu
                    obtain rfl : userId = u := by simpa using hu
                    exact ⟨jwt, uid, userId, token, rfl, rfl, rfl, hj, hi, hd, hv,
                      he, rfl⟩
                  · simp [hv, he] at hu
                | error e =>
                  simp [hv] at hu
  · intro hfalsy
    unfold getSessionUserId
    rw [if_pos hfalsy]
  · intro jwt uid userId hsj hsu hsd hj hi hd
    subst hsj; subst hsu; subst hsd
    have heval := getSessionUserId_eval verify jwt uid userId hj hi hd
    refine ⟨?_, ?_, ?_⟩
    · intro token hv he
      rw [heval, hv]
      simp [he]
    · intro token hv he
      rw [heval, hv]
      simp [he]
    · intro e hv
      rw [heval, hv]

/-- Witness for the amended C9: with a verifier accepting the cookie as
`uid-1`, the full session resolves to its stored userId `user-1`. -/
theorem getSessionUserId_amended_witness :
    getSessionUserId verifyAsUid1 fullSession = .ok (some "user-1") :=
  ((getSessionUserId_amended verifyAsUid1 fullSession).2.2 "jwt-1" "uid-1" "user-1"
      rfl rfl rfl (by decide) (by decide) (by decide)).1 { uid := "uid-1" } rfl rfl

/-- Claim C10: `UserAccount.sendResetPasswordEmail` is total (the whole
body is wrapped in a catch that logs and returns): when link generation
fails, or the generated link carries no (or an empty, hence falsy)
`oobCode`, no reset-password email is sent; otherwise exactly one email
is sent whose URL is `appUrl/auth/reset-password` carrying the `oobCode`
and the email address. -/
theorem UserAccount.sendResetPasswordEmail_spec
    (generatePasswordResetLink : String → Except String Url) (appUrl email : String) :
    (∀ e, generatePasswordResetLink email = .error e →
      UserAccount.sendResetPasswordEmail generatePasswordResetLink appUrl email = []) ∧
    (∀ u, generatePasswordResetLink email = .ok u →
      (u.searchParamGet "oobCode" = none ∨ u.searchParamGet "oobCode" = some "") →
      UserAccount.sendResetPasswordEmail generatePasswordResetLink appUrl email = []) ∧
    (∀ u c, generatePasswordResetLink email = .ok u →
      u.searchParamGet "oobCode" = some c → c ≠ "" →
      UserAccount.sendResetPasswordEmail generatePasswordResetLink appUrl email =
        [{ email := email
           passwordResetUrl := { base := appUrl ++ "/auth/reset-password"
                                 params := [("oobCode", c), ("email", email)] } }]) := by
  refine ⟨?_, ?_, ?_⟩
  · intro e he
    simp [UserAccount.sendResetPasswordEmail, he]
  · intro u hu hcode
    cases hcode with
    | inl hnone => simp [UserAccount.sendResetPasswordEmail, hu, hnone]
    | inr hempty => simp [UserAccount.sendResetPasswordEmail, hu, hempty]
  · intro u c hu hcode hc
    simp [UserAccount.sendResetPasswordEmail, hu, hcode, hc, Url.searchParamSet]

/-- Witness for C10: with `generateLinkOk` producing a link whose
`oobCode` is `my-code`, one email is sent carrying the code and the
address. -/
theorem UserAccount.sendResetPasswordEmail_spec_witness :
    UserAccount.sendResetPasswordEmail generateLinkOk "http://127.0.0.1:3000" "foo@example.com" =
      [{ email := "foo@example.com"
         passwordResetUrl := { base := "http://127.0.0.1:3000" ++ "/auth/reset-password"
                               params := [("oobCode", "my-code"),
                                          ("email", "foo@example.com")] } }] :=
  (UserAccount.sendResetPasswordEmail_spec generateLinkOk "http://127.0.0.1:3000"
      "foo@example.com").2.2
    { base := "https://firebase.app/auth"
      params := [("mode", "resetPassword"), ("oobCode", "my-code")] }
    "my-code" rfl rfl (by decide)
